import Mathlib

/-!
Shallow embedding of backend lambda_function.py (AI student-services chatbot).

Modelling conventions:
* JSON values are the inductive JVal; Python dicts are association lists
  with unique keys, looked up by jget (first occurrence).
* Python string operations (strip, lower, upper, substring containment,
  space-join) are re-implemented over character lists so that concrete
  evaluations reduce inside the kernel.  Case mapping is modelled on the
  ASCII range, which covers every string the program manipulates.
* External collaborators (S3 object fetch + JSON parse, the Lex V2
  recognize_text call, Comprehend key-phrase and sentiment calls, the
  json.loads library routine, and the wall clock used for session ids)
  are oracles carried in the Oracles structure.  A raised exception is an
  error value of the corresponding Except type; boto3 response shapes are
  modelled by the fields the code reads.
* A Python function that can raise an uncaught exception is embedded with
  result type Except Unit _, where Except.error is the uncaught exception.
-/

/-- JSON-like values: the runtime values the handler manipulates. -/
inductive JVal where
  | null
  | bool (b : Bool)
  | num (n : Int)
  | str (s : String)
  | arr (xs : List JVal)
  | obj (fields : List (String × JVal))

/-- Dictionary lookup: first binding of the key, if any (dict keys are unique). -/
def jget (fields : List (String × JVal)) (k : String) : Option JVal :=
  match fields with
  | [] => none
  | (k2, v) :: rest => if k2 = k then some v else jget rest k

/-- Python truthiness of a JSON-like value. -/
def JVal.truthy : JVal → Bool
  | .null => false
  | .bool b => b
  | .num n => n != 0
  | .str s => s.length != 0
  | .arr xs => !xs.isEmpty
  | .obj fs => !fs.isEmpty

/-- ASCII lower-casing of one character, as Python lower() acts on ASCII. -/
def lowerChar (c : Char) : Char :=
  if 'A' ≤ c ∧ c ≤ 'Z' then Char.ofNat (c.toNat + 32) else c

/-- ASCII upper-casing of one character, as Python upper() acts on ASCII. -/
def upperChar (c : Char) : Char :=
  if 'a' ≤ c ∧ c ≤ 'z' then Char.ofNat (c.toNat - 32) else c

/-- Characters stripped by Python str.strip() with no arguments. -/
def pyWs (c : Char) : Bool :=
  c = ' ' || c = '\t' || c = '\n' || c = '\r' || c = Char.ofNat 11 || c = Char.ofNat 12

/-- Python str.strip(): drop whitespace from both ends. -/
def pyStrip (s : String) : String :=
  String.mk (((s.data.dropWhile pyWs).reverse.dropWhile pyWs).reverse)

/-- Python str.lower() on the ASCII range. -/
def pyLower (s : String) : String := String.mk (s.data.map lowerChar)

/-- Python str.upper() on the ASCII range. -/
def pyUpper (s : String) : String := String.mk (s.data.map upperChar)

/-- Python " ".join on a list of strings. -/
def joinSpace : List String → String
  | [] => ""
  | [x] => x
  | x :: y :: rest => x ++ " " ++ joinSpace (y :: rest)

/-- List prefix test used to implement substring containment. -/
def isPre : List Char → List Char → Bool
  | [], _ => true
  | _ :: _, [] => false
  | a :: as, b :: bs => a == b && isPre as bs

/-- Does the needle occur at some position of the haystack list? -/
def subAt : List Char → List Char → Bool
  | n, [] => isPre n []
  | n, h :: t => isPre n (h :: t) || subAt n t

/-- Python substring containment: needle in haystack. -/
def containsSub (hay needle : String) : Bool := subAt needle.data hay.data

/-- ASCII apostrophe (codepoint 39), built explicitly. -/
def apos : String := String.mk [Char.ofNat 39]

/-- Environment variables read by the handler; none means the variable is unset. -/
structure Env where
  kbBucket : Option String
  kbKey : Option String
  useSentiment : Option String
  lexBotId : Option String
  lexAliasId : Option String
  lexLocaleId : Option String

/-- Failure modes of the S3 fetch + decode + json.loads pipeline inside
_load_kb_from_s3: a botocore ClientError or any other exception, each
carrying its message text. -/
inductive KbFail where
  | client (msg : String)
  | other (msg : String)

/-- The fields of a Lex V2 recognize_text response that the code reads:
the intent name of each interpretation (none when absent) and the content
of each message (none when absent). -/
structure LexResponse where
  interpretations : List (Option String)
  messages : List (Option String)

/-- The dictionary returned by _lex_reply_if_configured on success. -/
structure LexOut where
  reply : String
  intent : String
deriving DecidableEq

/-- Oracles for every external effect of one invocation. -/
structure Oracles where
  /-- Behaviour of json.loads inside _safe_json_loads: none when it raises. -/
  safeLoads : String → Option JVal
  /-- S3 get_object + utf-8 decode + json.loads for a bucket and key. -/
  s3KbFetch : String → String → Except KbFail JVal
  /-- lex.recognize_text given botId, aliasId, localeId, sessionId, text;
  an error is any exception from client construction or the call. -/
  lexCall : String → String → String → String → String → Except Unit LexResponse
  /-- comprehend.detect_key_phrases outcome: the Text field of each returned
  key phrase, or an exception. -/
  keyPhrasesCall : Except Unit (List (Option String))
  /-- comprehend.detect_sentiment outcome: the Sentiment field of the
  response, or an exception. -/
  sentimentCall : Except Unit (Option String)
  /-- int(time.time()) used to synthesize the Lex session id. -/
  now : Nat

/-- Models lines 49-51 and 56-57: (body.get("message", "") or "").strip().
A truthy non-string message makes .strip() raise AttributeError. -/
def msgOrEmpty (bf : List (String × JVal)) : Except Unit String :=
  match jget bf "message" with
  | none => .ok ""
  | some (.str s) => .ok (pyStrip s)
  | some v => if v.truthy then .error () else .ok ""

/-- Models _extract_message (lines 30-59), with safeLoads standing for
_safe_json_loads (lines 23-27). -/
def extractMessage (safeLoads : String → Option JVal) (event : JVal) : Except Unit String :=
  match event with
  | .obj fields =>
    match jget fields "message" with
    | some (.str s) => .ok (pyStrip s)
    | _ =>
      match jget fields "body" with
      | none => .ok ""
      | some .null => .ok ""
      | some (.obj bf) => msgOrEmpty bf
      | some (.str s) =>
        match safeLoads s with
        | some (.obj pf) => msgOrEmpty pf
        | _ => .ok ""
      | some _ => .ok ""
  | _ => .ok ""

/-- Models _load_kb_from_s3 (lines 62-69): the oracle is the combined
outcome of get_object, decode and json.loads; a parsed non-dict value
yields the empty mapping. -/
def loadKbFromS3 (fetch : String → String → Except KbFail JVal) (bucket key : String) :
    Except KbFail (List (String × JVal)) :=
  match fetch bucket key with
  | .error e => .error e
  | .ok (.obj fs) => .ok fs
  | .ok _ => .ok []

/-- Models _detect_sentiment_if_enabled (lines 72-83). -/
def detectSentimentIfEnabled (env : Env) (text : String)
    (call : Except Unit (Option String)) : Option String :=
  if pyLower (pyStrip (env.useSentiment.getD "false")) = "true" ∧ text ≠ "" then
    match call with
    | .error _ => none
    | .ok s => s
  else none

/-- Models _key_phrases (lines 86-100): lower-cased truthy phrase texts
joined by spaces; empty on empty input or any exception. -/
def keyPhrases (text : String) (call : Except Unit (List (Option String))) : String :=
  if text = "" then ""
  else
    match call with
    | .error _ => ""
    | .ok items =>
      joinSpace (items.filterMap fun o =>
        match o with
        | some t => if t = "" then none else some (pyLower t)
        | none => none)

/-- The recognize_text invocation of lines 116-124, with the session id
synthesized from the clock as in line 117. -/
def lexInvoke (env : Env) (orc : Oracles) (userText : String) : Except Unit LexResponse :=
  orc.lexCall (pyStrip (env.lexBotId.getD "")) (pyStrip (env.lexAliasId.getD ""))
    (pyStrip (env.lexLocaleId.getD "en_US")) ("web-" ++ Nat.repr orc.now) userText

/-- Models _lex_reply_if_configured (lines 103-143). -/
def lexReplyIfConfigured (env : Env) (orc : Oracles) (userText : String) : Option LexOut :=
  if pyStrip (env.lexBotId.getD "") = "" ∨ pyStrip (env.lexAliasId.getD "") = "" ∨ userText = "" then
    none
  else
    match lexInvoke env orc userText with
    | .error _ => none
    | .ok resp =>
      let intentName : Option String :=
        match resp.interpretations with
        | [] => none
        | i :: _ => i
      let lexText : Option String :=
        match resp.messages with
        | [] => none
        | m :: _ => m
      match lexText with
      | none => none
      | some t =>
        if t = "" then none
        else
          some ⟨t, match intentName with
                   | none => "LexIntent"
                   | some n => if n = "" then "LexIntent" else n⟩

/-- Response body: the CORS-preflight acknowledgment or a classification
body with reply, intent, and optional sentiment. -/
inductive RespBody where
  | ack
  | msg (reply : JVal) (intent : String) (sentiment : Option String)

/-- An HTTP response of the handler (headers are constant and omitted). -/
structure Response where
  statusCode : Nat
  body : RespBody

/-- Fixed reply of the 400 response (line 158), with ASCII apostrophes. -/
def badRequestReply : String := "Missing " ++ apos ++ "message" ++ apos ++ " in request."

/-- Fixed reply of the 500 misconfiguration response (line 165). -/
def serverConfigReply : String := "Server misconfigured: KB_BUCKET not set."

/-- Greeting tokens of line 192. -/
def greetingTokens : List String :=
  ["hi", "hello", "hey", "good morning", "good afternoon", "good evening"]

/-- Program keywords of line 197. -/
def programTokens : List String := ["program", "course", "diploma", "degree", "tuition", "fee"]

/-- Registration keywords of line 202. -/
def registrationTokens : List String :=
  ["register", "registration", "enroll", "enrollment", "admission", "apply"]

/-- Support keywords of line 207. -/
def supportTokens : List String := ["support", "counsel", "advis", "career", "help", "guidance"]

/-- Python any(w in hay for w in toks). -/
def anyToken (hay : String) (toks : List String) : Bool :=
  toks.any fun t => containsSub hay t

/-- Builtin default reply for GreetingIntent (line 194). -/
def greetingDefault : String := "Hi! How can I help you today?"

/-- Builtin default reply for ProgramInfoIntent (line 199); the code uses
the right single quotation mark U+2019. -/
def programInfoDefault : String := "We offer multiple programs. Ask which field you’re interested in."

/-- Builtin default reply for RegistrationHelpIntent (line 204). -/
def registrationDefault : String := "You can register via the student portal. Need step-by-step help?"

/-- Builtin default reply for SupportServicesIntent (line 209). -/
def supportDefault : String := "We provide student support services such as advising and career help."

/-- Builtin default reply for FallbackIntent (line 214); the code uses the
right single quotation mark U+2019. -/
def fallbackDefault : String := "I’m not sure about that yet. Ask about programs, registration, or support services."

/-- The builtin default reply of each intent label of the keyword chain. -/
def builtinDefaultReply (intent : String) : String :=
  if intent = "GreetingIntent" then greetingDefault
  else if intent = "ProgramInfoIntent" then programInfoDefault
  else if intent = "RegistrationHelpIntent" then registrationDefault
  else if intent = "SupportServicesIntent" then supportDefault
  else if intent = "FallbackIntent" then fallbackDefault
  else ""

/-- The ProgramInfo default exactly as enumerated in the spec, which shows
an ASCII apostrophe (codepoint 39) where the code has U+2019. -/
def specProgramInfoDefault : String :=
  "We offer multiple programs. Ask which field you" ++ apos ++ "re interested in."

/-- The Fallback default exactly as enumerated in the spec, which shows an
ASCII apostrophe (codepoint 39) where the code has U+2019. -/
def specFallbackDefault : String :=
  "I" ++ apos ++ "m not sure about that yet. Ask about programs, registration, or support services."

/-- Python kb.get(k, d) where the default is a plain string reply. -/
def kbGetD (kb : List (String × JVal)) (k : String) (d : String) : JVal :=
  match jget kb k with
  | some v => v
  | none => .str d

/-- The keyword rule chain of lines 191-214: greeting is matched against
the normalized message only, the other categories against the merged
classification input; first match wins; reply is resolved through the KB
with a builtin default per intent. -/
def classifyKeyword (lowerMsg text : String) (kb : List (String × JVal)) : String × JVal :=
  if anyToken lowerMsg greetingTokens then
    ("GreetingIntent", kbGetD kb "GreetingIntent" greetingDefault)
  else if anyToken text programTokens then
    ("ProgramInfoIntent", kbGetD kb "ProgramInfoIntent" programInfoDefault)
  else if anyToken text registrationTokens then
    ("RegistrationHelpIntent", kbGetD kb "RegistrationHelpIntent" registrationDefault)
  else if anyToken text supportTokens then
    ("SupportServicesIntent", kbGetD kb "SupportServicesIntent" supportDefault)
  else
    ("FallbackIntent", kbGetD kb "FallbackIntent" fallbackDefault)

/-- Models lines 150-152: the method extraction with its dict defaults,
truthiness fallbacks and final upper-casing; a non-dict intermediate or a
truthy non-string method raises. -/
def getMethod (fields : List (String × JVal)) : Except Unit String :=
  match (jget fields "requestContext").getD (.obj []) with
  | .obj rcf =>
    match (jget rcf "http").getD (.obj []) with
    | .obj hf =>
      let c := (jget hf "method").getD .null
      let v := if c.truthy then c
               else
                 let h := (jget fields "httpMethod").getD .null
                 if h.truthy then h else .str ""
      match v with
      | .str s => .ok (pyUpper s)
      | _ => .error ()
    | _ => .error ()
  | _ => .error ()

/-- Models line 222: the sentiment field is attached only when the value
is truthy. -/
def attachSentiment : Option String → Option String
  | none => none
  | some t => if t = "" then none else some t

/-- Models lambda_handler (lines 148-225).  The event is the fields of the
incoming event dict; the result is the returned response, or an uncaught
exception. -/
def lambdaHandler (env : Env) (orc : Oracles) (event : List (String × JVal)) :
    Except Unit Response :=
  match getMethod event with
  | .error e => .error e
  | .ok method =>
    if method = "OPTIONS" then .ok ⟨200, .ack⟩
    else
      match extractMessage orc.safeLoads (.obj event) with
      | .error e => .error e
      | .ok userMsg =>
        if userMsg = "" then
          .ok ⟨400, .msg (.str badRequestReply) "BadRequest" none⟩
        else
          let kbBucket := pyStrip (env.kbBucket.getD "")
          let kbKey := pyStrip (env.kbKey.getD "knowledgebase.json")
          if kbBucket = "" then
            .ok ⟨500, .msg (.str serverConfigReply) "ServerConfigError" none⟩
          else
            match loadKbFromS3 orc.s3KbFetch kbBucket kbKey with
            | .error (.client m) =>
              .ok ⟨500, .msg (.str ("KB load error from S3: " ++ m)) "KBLoadError" none⟩
            | .error (.other m) =>
              .ok ⟨500, .msg (.str ("KB load error: " ++ m)) "KBLoadError" none⟩
            | .ok kb =>
              match lexReplyIfConfigured env orc userMsg with
              | some out =>
                let sentiment := detectSentimentIfEnabled env userMsg orc.sentimentCall
                let intent := if out.intent = "" then "LexIntent" else out.intent
                .ok ⟨200, .msg (.str out.reply) intent (attachSentiment sentiment)⟩
              | none =>
                let lowerMsg := pyLower (pyStrip userMsg)
                let phrases := keyPhrases userMsg orc.keyPhrasesCall
                let text := pyStrip (lowerMsg ++ " " ++ phrases)
                let r := classifyKeyword lowerMsg text kb
                let sentiment := detectSentimentIfEnabled env userMsg orc.sentimentCall
                .ok ⟨200, .msg r.2 r.1 (attachSentiment sentiment)⟩

/-- Status code together with reply and intent, ignoring the sentiment
field: the deterministic core of a response. -/
def respCore (r : Response) : Nat × Option (JVal × String) :=
  (r.statusCode,
   match r.body with
   | .ack => none
   | .msg rep i _ => some (rep, i))

/-- Does the event carry a top-level message field holding a string?
Mirrors the isinstance test of line 41. -/
def topMsgIsStr (fields : List (String × JVal)) : Bool :=
  match jget fields "message" with
  | some (.str _) => true
  | _ => false

/-- Fixture: every optional feature configured. -/
def envAllSet : Env :=
  ⟨some "kb-bucket", some "kb.json", some "true", some "BOT", some "ALIAS", some "en_US"⟩

/-- Fixture: KB bucket unset while the dialogue engine is configured. -/
def envLexNoKb : Env := ⟨none, none, none, some "BOT", some "ALIAS", none⟩

/-- Fixture: every external call succeeds; the KB carries one custom reply,
the engine answers Welcome!/Greeting2, sentiment is POSITIVE. -/
def orcAllAnswer : Oracles :=
  ⟨(fun _ => none), (fun _ _ => .ok (.obj [("GreetingIntent", .str "custom")])),
   (fun _ _ _ _ _ => .ok ⟨[some "Greeting2"], [some "Welcome!"]⟩),
   .ok [some "tuition"], .ok (some "POSITIVE"), 7⟩

/-- Fixture: benign oracles with failing optional calls and an empty KB
object in the store. -/
def orcBase : Oracles :=
  ⟨(fun _ => none), (fun _ _ => .ok (.obj [])), (fun _ _ _ _ _ => .error ()),
   .ok [], .error (), 0⟩

/-- Fixture: the S3 fetch raises a ClientError. -/
def orcKbFail : Oracles :=
  ⟨(fun _ => none), (fun _ _ => .error (.client "boom")), (fun _ _ _ _ _ => .error ()),
   .ok [], .error (), 0⟩

/-- Fixture: the engine answers while the KB store is unreachable or unset. -/
def orcLexAnswer : Oracles :=
  ⟨(fun _ => none), (fun _ _ => .ok (.obj [])),
   (fun _ _ _ _ _ => .ok ⟨[some "Greeting2"], [some "Welcome!"]⟩), .ok [], .error (), 0⟩

/-- A request body whose JSON text carries a numeric message field. -/
def crashBody : String := "\x7b\"message\": 5\x7d"

/-- The event carrying crashBody as its body string. -/
def crashEvent : List (String × JVal) := [("body", .str crashBody)]

/-- The json.loads behaviour on crashBody: an object with a numeric
message field. -/
def crashLoads : String → Option JVal :=
  fun s => if s = crashBody then some (.obj [("message", .num 5)]) else none

/-- Fixture: oracles whose json.loads parses crashBody. -/
def orcCrash : Oracles :=
  ⟨crashLoads, (fun _ _ => .ok (.obj [])), (fun _ _ _ _ _ => .error ()),
   .ok [], .error (), 0⟩

/-! Helper lemmas shared by the claim theorems. -/

/-- Stripping the default of an unset environment variable yields the
empty string. -/
theorem pyStrip_unset_empty : pyStrip ((none : Option String).getD "") = "" := by decide

/-- Reaching the KB step with an unset bucket yields the 500
ServerConfigError response. -/
theorem handler_config_error (env : Env) (orc : Oracles) (event : List (String × JVal))
    (m msg : String)
    (hm : getMethod event = .ok m) (hopt : m ≠ "OPTIONS")
    (hmsg : extractMessage orc.safeLoads (.obj event) = .ok msg) (hne : msg ≠ "")
    (hbucket : pyStrip (env.kbBucket.getD "") = "") :
    lambdaHandler env orc event
      = .ok ⟨500, .msg (.str serverConfigReply) "ServerConfigError" none⟩ := by
  unfold lambdaHandler
  rw [hm]
  simp only [if_neg hopt, hmsg, if_neg hne, hbucket, if_true, eq_self_iff_true]

/-- A ClientError from the KB loader yields the 500 KBLoadError response
with the S3 wording. -/
theorem handler_kb_client_error (env : Env) (orc : Oracles) (event : List (String × JVal))
    (m msg e : String)
    (hm : getMethod event = .ok m) (hopt : m ≠ "OPTIONS")
    (hmsg : extractMessage orc.safeLoads (.obj event) = .ok msg) (hne : msg ≠ "")
    (hbucket : pyStrip (env.kbBucket.getD "") ≠ "")
    (hload : loadKbFromS3 orc.s3KbFetch (pyStrip (env.kbBucket.getD ""))
        (pyStrip (env.kbKey.getD "knowledgebase.json")) = .error (.client e)) :
    lambdaHandler env orc event
      = .ok ⟨500, .msg (.str ("KB load error from S3: " ++ e)) "KBLoadError" none⟩ := by
  unfold lambdaHandler
  rw [hm]
  simp only [if_neg hopt, hmsg, if_neg hne, if_neg hbucket, hload]

/-- Any other exception from the KB loader yields the 500 KBLoadError
response with the generic wording. -/
theorem handler_kb_other_error (env : Env) (orc : Oracles) (event : List (String × JVal))
    (m msg e : String)
    (hm : getMethod event = .ok m) (hopt : m ≠ "OPTIONS")
    (hmsg : extractMessage orc.safeLoads (.obj event) = .ok msg) (hne : msg ≠ "")
    (hbucket : pyStrip (env.kbBucket.getD "") ≠ "")
    (hload : loadKbFromS3 orc.s3KbFetch (pyStrip (env.kbBucket.getD ""))
        (pyStrip (env.kbKey.getD "knowledgebase.json")) = .error (.other e)) :
    lambdaHandler env orc event
      = .ok ⟨500, .msg (.str ("KB load error: " ++ e)) "KBLoadError" none⟩ := by
  unfold lambdaHandler
  rw [hm]
  simp only [if_neg hopt, hmsg, if_neg hne, if_neg hbucket, hload]

/-- When the engine adapter returns a result, the handler forwards its
reply and intent with status 200 and the sentiment annotation. -/
theorem handler_lex_branch (env : Env) (orc : Oracles) (event : List (String × JVal))
    (m msg : String) (kb : List (String × JVal)) (out : LexOut)
    (hm : getMethod event = .ok m) (hopt : m ≠ "OPTIONS")
    (hmsg : extractMessage orc.safeLoads (.obj event) = .ok msg) (hne : msg ≠ "")
    (hbucket : pyStrip (env.kbBucket.getD "") ≠ "")
    (hload : loadKbFromS3 orc.s3KbFetch (pyStrip (env.kbBucket.getD ""))
        (pyStrip (env.kbKey.getD "knowledgebase.json")) = .ok kb)
    (hlex : lexReplyIfConfigured env orc msg = some out) :
    lambdaHandler env orc event
      = .ok ⟨200, .msg (.str out.reply) (if out.intent = "" then "LexIntent" else out.intent)
          (attachSentiment (detectSentimentIfEnabled env msg orc.sentimentCall))⟩ := by
  unfold lambdaHandler
  rw [hm]
  simp only [if_neg hopt, hmsg, if_neg hne, if_neg hbucket, hload, hlex]

/-- An empty extracted message yields the 400 BadRequest response. -/
theorem handler_empty_message_400 (env : Env) (orc : Oracles)
    (event : List (String × JVal)) (m : String)
    (hm : getMethod event = .ok m) (hopt : m ≠ "OPTIONS")
    (hmsg : extractMessage orc.safeLoads (.obj event) = .ok "") :
    lambdaHandler env orc event
      = .ok ⟨400, .msg (.str badRequestReply) "BadRequest" none⟩ := by
  unfold lambdaHandler
  rw [hm]
  simp [if_neg hopt, hmsg]

/-- An exception inside message extraction propagates out of the handler. -/
theorem handler_extract_error (env : Env) (orc : Oracles)
    (event : List (String × JVal)) (m : String)
    (hm : getMethod event = .ok m) (hopt : m ≠ "OPTIONS")
    (hext : extractMessage orc.safeLoads (.obj event) = .error ()) :
    lambdaHandler env orc event = .error () := by
  unfold lambdaHandler
  rw [hm]
  simp only [if_neg hopt, hext]

/-- An unconfigured engine identifier makes the adapter return nothing. -/
theorem lexReply_unconfigured (env : Env) (orc : Oracles) (msg : String)
    (h : pyStrip (env.lexBotId.getD "") = "") :
    lexReplyIfConfigured env orc msg = none := by
  unfold lexReplyIfConfigured
  rw [if_pos (Or.inl h)]

/-- A failing engine call makes the adapter return nothing. -/
theorem lexReply_call_error (env : Env) (sl : String → Option JVal)
    (s3 : String → String → Except KbFail JVal)
    (kp : Except Unit (List (Option String))) (sc : Except Unit (Option String))
    (now : Nat) (msg : String) :
    lexReplyIfConfigured env ⟨sl, s3, fun _ _ _ _ _ => .error (), kp, sc, now⟩ msg = none := by
  unfold lexReplyIfConfigured
  split <;> rfl

/-- A failing sentiment call yields no sentiment label. -/
theorem sentiment_call_error (env : Env) (t : String) :
    detectSentimentIfEnabled env t (.error ()) = none := by
  unfold detectSentimentIfEnabled
  split <;> rfl

/-- With the sentiment flag unset, no sentiment label is produced. -/
theorem sentiment_unset (env : Env) (t : String) (sc : Except Unit (Option String))
    (h : env.useSentiment = none) :
    detectSentimentIfEnabled env t sc = none := by
  unfold detectSentimentIfEnabled
  rw [h, if_neg]
  intro hc
  exact absurd hc.1 (by decide)

/-- A failing phrase-extraction call behaves like one returning no
phrases. -/
theorem keyPhrases_error_eq_nil (msg : String) :
    keyPhrases msg (Except.error ()) = keyPhrases msg (Except.ok []) := by
  by_cases hmz : msg = "" <;> simp [keyPhrases, hmz, joinSpace]

/-- The handler result depends on the oracles only through the listed
components. -/
theorem handlerCongr (env1 env2 : Env) (orc1 orc2 : Oracles) (event : List (String × JVal))
    (hsl : orc1.safeLoads = orc2.safeLoads)
    (hb : env1.kbBucket = env2.kbBucket) (hk : env1.kbKey = env2.kbKey)
    (hs3 : orc1.s3KbFetch = orc2.s3KbFetch)
    (hlex : ∀ msg, lexReplyIfConfigured env1 orc1 msg = lexReplyIfConfigured env2 orc2 msg)
    (hph : ∀ msg, keyPhrases msg orc1.keyPhrasesCall = keyPhrases msg orc2.keyPhrasesCall)
    (hsent : ∀ msg, detectSentimentIfEnabled env1 msg orc1.sentimentCall
        = detectSentimentIfEnabled env2 msg orc2.sentimentCall) :
    lambdaHandler env1 orc1 event = lambdaHandler env2 orc2 event := by
  unfold lambdaHandler
  simp only [hsl, hb, hk, hs3, hlex, hph, hsent]

/-- Like handlerCongr, but the sentiment oracle is free: only the status,
reply and intent are compared. -/
theorem handlerCoreCongr (env1 env2 : Env) (orc1 orc2 : Oracles) (event : List (String × JVal))
    (hsl : orc1.safeLoads = orc2.safeLoads)
    (hb : env1.kbBucket = env2.kbBucket) (hk : env1.kbKey = env2.kbKey)
    (hs3 : orc1.s3KbFetch = orc2.s3KbFetch)
    (hlex : ∀ msg, lexReplyIfConfigured env1 orc1 msg = lexReplyIfConfigured env2 orc2 msg)
    (hph : ∀ msg, keyPhrases msg orc1.keyPhrasesCall = keyPhrases msg orc2.keyPhrasesCall) :
    Except.map respCore (lambdaHandler env1 orc1 event)
      = Except.map respCore (lambdaHandler env2 orc2 event) := by
  unfold lambdaHandler
  simp only [hsl, hb, hk, hs3, hlex, hph]
  cases hgm : getMethod event with
  | error e => rfl
  | ok m =>
    by_cases hop : m = "OPTIONS"
    · simp [hop]
    · simp only [if_neg hop]
      cases hex : extractMessage orc2.safeLoads (.obj event) with
      | error e => rfl
      | ok msg =>
        by_cases hmz : msg = ""
        · simp [hmz]
        · simp only [if_neg hmz]
          by_cases hbz : pyStrip (env2.kbBucket.getD "") = ""
          · simp [hbz]
          · simp only [if_neg hbz]
            cases hld : loadKbFromS3 orc2.s3KbFetch (pyStrip (env2.kbBucket.getD ""))
                (pyStrip (env2.kbKey.getD "knowledgebase.json")) with
            | error e => cases e <;> rfl
            | ok kb =>
              cases hlx : lexReplyIfConfigured env2 orc2 msg with
              | some out => simp [respCore, Except.map]
              | none => simp [respCore, Except.map]

/-- With no top-level string message and a string body, extraction reduces
to the json.loads outcome on the body. -/
theorem extract_body_str (sl : String → Option JVal) (event : List (String × JVal)) (s : String)
    (htop : topMsgIsStr event = false) (hbody : jget event "body" = some (.str s)) :
    extractMessage sl (.obj event)
      = (match sl s with
         | some (.obj pf) => msgOrEmpty pf
         | _ => Except.ok "") := by
  unfold topMsgIsStr at htop
  cases hjm : jget event "message" with
  | none => simp only [extractMessage, hjm, hbody]
  | some v =>
    rw [hjm] at htop
    cases v with
    | str s2 => simp at htop
    | null => simp only [extractMessage, hjm, hbody]
    | bool b => simp only [extractMessage, hjm, hbody]
    | num n => simp only [extractMessage, hjm, hbody]
    | arr xs => simp only [extractMessage, hjm, hbody]
    | obj fs => simp only [extractMessage, hjm, hbody]

/-! Claim theorems. -/

/-- C1: whenever the normalized (stripped, lower-cased) utterance contains
a greeting token as a raw substring, the keyword classifier yields the
greeting intent, whatever keywords the merged classification input
carries: the greeting rule is first, short-circuiting, and matched
against the normalized text only. -/
theorem greeting_rule_first_wins (u text : String) (kb : List (String × JVal))
    (h : ∃ g ∈ greetingTokens, containsSub (pyLower (pyStrip u)) g = true) :
    (classifyKeyword (pyLower (pyStrip u)) text kb).1 = "GreetingIntent" := by
  have hA : anyToken (pyLower (pyStrip u)) greetingTokens = true := by
    obtain ⟨g, hg, hc⟩ := h
    unfold anyToken
    exact List.any_eq_true.mpr ⟨g, hg, hc⟩
  simp [classifyKeyword, hA]

/-- C1 witness: Hijack my tuition fees matches the greeting rule through
the substring hi, beating the program keywords in the merged text. -/
theorem greeting_rule_first_wins_witness :
    (∃ g ∈ greetingTokens, containsSub (pyLower (pyStrip " Hijack my tuition fees ")) g = true)
    ∧ (classifyKeyword (pyLower (pyStrip " Hijack my tuition fees "))
        "hijack my tuition fees tuition fee" []).1 = "GreetingIntent" :=
  ⟨⟨"hi", by decide, by decide⟩,
   greeting_rule_first_wins " Hijack my tuition fees " "hijack my tuition fees tuition fee" []
     ⟨"hi", by decide, by decide⟩⟩

/-- C2 counterexample: with an empty KB and an utterance routed to
Fallback, the reply is the code default, which is not the string the spec
enumerates — the code uses U+2019 where the spec shows the ASCII
apostrophe; ProgramInfo differs the same way. -/
theorem kb_default_reply_spec_counterexample :
    (classifyKeyword "zzz" "zzz" []).2 = JVal.str fallbackDefault
    ∧ fallbackDefault ≠ specFallbackDefault
    ∧ programInfoDefault ≠ specProgramInfoDefault
    ∧ (classifyKeyword "zzz" "zzz" []).2 ≠ JVal.str specFallbackDefault := by
  refine ⟨rfl, by decide, by decide, ?_⟩
  intro h
  have h2 : JVal.str fallbackDefault = JVal.str specFallbackDefault := h
  injection h2 with h3
  exact absurd h3 (by decide)

/-- C2 (amended): the reply of every classification equals
kb.get(intent, builtinDefaultReply intent) — the custom KB value when the
key is present, and otherwise the builtin default reply exactly as
hard-coded, which for ProgramInfo and Fallback carries U+2019 rather than
the ASCII apostrophe shown in the spec. -/
theorem classify_reply_resolution (lowerMsg text : String) (kb : List (String × JVal)) :
    (classifyKeyword lowerMsg text kb).2
      = kbGetD kb (classifyKeyword lowerMsg text kb).1
          (builtinDefaultReply (classifyKeyword lowerMsg text kb).1) := by
  unfold classifyKeyword
  split_ifs <;> rfl

/-- C3: when the normalized text carries no greeting token and the merged
classification input carries no keyword of any category, the chain
terminates in the Fallback intent — there is no no-match outcome. -/
theorem fallback_when_no_keywords (lowerMsg text : String) (kb : List (String × JVal))
    (hg : anyToken lowerMsg greetingTokens = false)
    (hp : anyToken text programTokens = false)
    (hr : anyToken text registrationTokens = false)
    (hs : anyToken text supportTokens = false) :
    (classifyKeyword lowerMsg text kb).1 = "FallbackIntent" := by
  simp [classifyKeyword, hg, hp, hr, hs]

/-- C3 witness: the keyword-free utterance zzz lands in Fallback. -/
theorem fallback_when_no_keywords_witness :
    anyToken "zzz" greetingTokens = false ∧ anyToken "zzz" programTokens = false
    ∧ anyToken "zzz" registrationTokens = false ∧ anyToken "zzz" supportTokens = false
    ∧ (classifyKeyword "zzz" "zzz" []).1 = "FallbackIntent" :=
  ⟨by decide, by decide, by decide, by decide,
   fallback_when_no_keywords "zzz" "zzz" [] (by decide) (by decide) (by decide) (by decide)⟩

/-- C4: any non-preflight request whose extracted message is empty (a
missing, empty, or whitespace-only message) gets the 400 BadRequest
response with the fixed reply, for every environment and every oracle —
in particular no KB fetch outcome and no engine outcome can change it. -/
theorem bad_request_on_empty_message (env : Env) (orc : Oracles)
    (event : List (String × JVal)) (m : String)
    (hm : getMethod event = .ok m) (hopt : m ≠ "OPTIONS")
    (hmsg : extractMessage orc.safeLoads (.obj event) = .ok "") :
    lambdaHandler env orc event
      = .ok ⟨400, .msg (.str badRequestReply) "BadRequest" none⟩ :=
  handler_empty_message_400 env orc event m hm hopt hmsg

/-- C4 witness: a whitespace-only message under a fully configured
environment with answering oracles still yields 400 BadRequest. -/
theorem bad_request_on_empty_message_witness :
    getMethod [("message", JVal.str "   ")] = .ok "" ∧ ("" : String) ≠ "OPTIONS"
    ∧ extractMessage orcAllAnswer.safeLoads (.obj [("message", JVal.str "   ")]) = .ok ""
    ∧ lambdaHandler envAllSet orcAllAnswer [("message", JVal.str "   ")]
        = .ok ⟨400, .msg (.str badRequestReply) "BadRequest" none⟩ :=
  ⟨rfl, by decide, rfl,
   bad_request_on_empty_message envAllSet orcAllAnswer [("message", JVal.str "   ")] ""
     rfl (by decide) rfl⟩

/-- C5: when the engine is configured and reachable, a first message with
non-empty content and a first interpretation with non-empty intent name
are forwarded verbatim with status 200, whatever the KB and the keyword
surface say; a missing or empty first intent name degrades to the
LexIntent placeholder; a missing or empty first message content makes the
adapter report no match. -/
theorem lex_result_passthrough (env : Env) (orc : Oracles) (event : List (String × JVal))
    (m msg t : String) (irest mrest : List (Option String)) (kb : List (String × JVal))
    (hm : getMethod event = .ok m) (hopt : m ≠ "OPTIONS")
    (hmsg : extractMessage orc.safeLoads (.obj event) = .ok msg) (hne : msg ≠ "")
    (hbucket : pyStrip (env.kbBucket.getD "") ≠ "")
    (hload : loadKbFromS3 orc.s3KbFetch (pyStrip (env.kbBucket.getD ""))
        (pyStrip (env.kbKey.getD "knowledgebase.json")) = .ok kb)
    (hbot : pyStrip (env.lexBotId.getD "") ≠ "")
    (halias : pyStrip (env.lexAliasId.getD "") ≠ "") :
    (∀ n, lexInvoke env orc msg = .ok ⟨some n :: irest, some t :: mrest⟩ → t ≠ "" → n ≠ "" →
      lambdaHandler env orc event
        = .ok ⟨200, .msg (.str t) n
            (attachSentiment (detectSentimentIfEnabled env msg orc.sentimentCall))⟩)
    ∧ (lexInvoke env orc msg = .ok ⟨[], some t :: mrest⟩ → t ≠ "" →
        lexReplyIfConfigured env orc msg = some ⟨t, "LexIntent"⟩)
    ∧ (lexInvoke env orc msg = .ok ⟨none :: irest, some t :: mrest⟩ → t ≠ "" →
        lexReplyIfConfigured env orc msg = some ⟨t, "LexIntent"⟩)
    ∧ (∀ resp, lexInvoke env orc msg = .ok resp →
        (resp.messages = [] ∨ (∃ r, resp.messages = none :: r) ∨
          (∃ r, resp.messages = some "" :: r)) →
        lexReplyIfConfigured env orc msg = none) := by
  have hcond : ¬(pyStrip (env.lexBotId.getD "") = "" ∨ pyStrip (env.lexAliasId.getD "") = ""
      ∨ msg = "") := by
    push_neg
    exact ⟨hbot, halias, hne⟩
  refine ⟨?_, ?_, ?_, ?_⟩
  · intro n hcall ht hn
    have hlx : lexReplyIfConfigured env orc msg = some ⟨t, n⟩ := by
      unfold lexReplyIfConfigured
      rw [if_neg hcond, hcall]
      simp [ht, hn]
    have hout := handler_lex_branch env orc event m msg kb ⟨t, n⟩ hm hopt hmsg hne hbucket
      hload hlx
    simpa [if_neg hn] using hout
  · intro hcall ht
    unfold lexReplyIfConfigured
    rw [if_neg hcond, hcall]
    simp [ht]
  · intro hcall ht
    unfold lexReplyIfConfigured
    rw [if_neg hcond, hcall]
    simp [ht]
  · intro resp hcall hmsgs
    unfold lexReplyIfConfigured
    rw [if_neg hcond, hcall]
    rcases hmsgs with h0 | ⟨r, hr⟩ | ⟨r, hr⟩
    · simp [h0]
    · simp [hr]
    · simp [hr]

/-- C5 witness: with the engine answering Welcome!/Greeting2, the
utterance hello is answered by the engine verbatim — the greeting keyword
and the custom KB reply are bypassed — and the sentiment label is
attached. -/
theorem lex_result_passthrough_witness :
    lambdaHandler envAllSet orcAllAnswer [("message", JVal.str "hello")]
      = .ok ⟨200, .msg (.str "Welcome!") "Greeting2" (some "POSITIVE")⟩ :=
  (lex_result_passthrough envAllSet orcAllAnswer [("message", JVal.str "hello")] "" "hello"
      "Welcome!" [] [] [("GreetingIntent", JVal.str "custom")] rfl (by decide) rfl (by decide)
      (by decide) rfl (by decide) (by decide)).1 "Greeting2" rfl (by decide) (by decide)

/-- C6: each optional enrichment degrades silently — a failing engine
call gives the same run as an unconfigured engine, a failing phrase
extraction behaves as the empty phrase list and yields the empty
enrichment string, and a failing sentiment call gives the same run as a
disabled sentiment flag and yields no sentiment label. -/
theorem optional_enrichment_degrades
    (kbB kbK useS botId aliasId loc : Option String)
    (sl : String → Option JVal) (s3 : String → String → Except KbFail JVal)
    (lex lex2 : String → String → String → String → String → Except Unit LexResponse)
    (kp : Except Unit (List (Option String))) (sc : Except Unit (Option String))
    (now : Nat) (event : List (String × JVal)) (t : String) :
    (lambdaHandler ⟨kbB, kbK, useS, botId, aliasId, loc⟩
        ⟨sl, s3, fun _ _ _ _ _ => .error (), kp, sc, now⟩ event
      = lambdaHandler ⟨kbB, kbK, useS, none, aliasId, loc⟩ ⟨sl, s3, lex2, kp, sc, now⟩ event)
    ∧ keyPhrases t (Except.error ()) = ""
    ∧ (lambdaHandler ⟨kbB, kbK, useS, botId, aliasId, loc⟩
        ⟨sl, s3, lex, .error (), sc, now⟩ event
      = lambdaHandler ⟨kbB, kbK, useS, botId, aliasId, loc⟩ ⟨sl, s3, lex, .ok [], sc, now⟩ event)
    ∧ detectSentimentIfEnabled ⟨kbB, kbK, useS, botId, aliasId, loc⟩ t (Except.error ()) = none
    ∧ (lambdaHandler ⟨kbB, kbK, useS, botId, aliasId, loc⟩
        ⟨sl, s3, lex, kp, .error (), now⟩ event
      = lambdaHandler ⟨kbB, kbK, none, botId, aliasId, loc⟩ ⟨sl, s3, lex, kp, sc, now⟩ event) := by
  refine ⟨?_, ?_, ?_, ?_, ?_⟩
  · refine handlerCongr _ _ _ _ event rfl rfl rfl rfl ?_ (fun _ => rfl) (fun _ => rfl)
    intro msg
    rw [lexReply_call_error, lexReply_unconfigured _ _ _ pyStrip_unset_empty]
  · by_cases hmz : t = "" <;> simp [keyPhrases, hmz]
  · refine handlerCongr _ _ _ _ event rfl rfl rfl rfl (fun _ => rfl) ?_ (fun _ => rfl)
    intro msg
    exact keyPhrases_error_eq_nil msg
  · exact sentiment_call_error _ t
  · refine handlerCongr _ _ _ _ event rfl rfl rfl rfl (fun _ => rfl) (fun _ => rfl) ?_
    intro msg
    rw [sentiment_call_error, sentiment_unset _ _ _ rfl]

/-- C7: the KB loader fails loudly and distinctly — an unset bucket gives
500 ServerConfigError, a ClientError or any other fetch or parse
exception gives 500 KBLoadError, while fetched content parsing to a
non-mapping value silently becomes the empty KB. -/
theorem kb_loader_fails_loudly (env : Env) (orc : Oracles) (event : List (String × JVal))
    (m msg : String)
    (hm : getMethod event = .ok m) (hopt : m ≠ "OPTIONS")
    (hmsg : extractMessage orc.safeLoads (.obj event) = .ok msg) (hne : msg ≠ "") :
    (pyStrip (env.kbBucket.getD "") = "" →
      lambdaHandler env orc event
        = .ok ⟨500, .msg (.str serverConfigReply) "ServerConfigError" none⟩)
    ∧ (∀ e, pyStrip (env.kbBucket.getD "") ≠ "" →
        orc.s3KbFetch (pyStrip (env.kbBucket.getD ""))
          (pyStrip (env.kbKey.getD "knowledgebase.json")) = .error (.client e) →
        lambdaHandler env orc event
          = .ok ⟨500, .msg (.str ("KB load error from S3: " ++ e)) "KBLoadError" none⟩)
    ∧ (∀ e, pyStrip (env.kbBucket.getD "") ≠ "" →
        orc.s3KbFetch (pyStrip (env.kbBucket.getD ""))
          (pyStrip (env.kbKey.getD "knowledgebase.json")) = .error (.other e) →
        lambdaHandler env orc event
          = .ok ⟨500, .msg (.str ("KB load error: " ++ e)) "KBLoadError" none⟩)
    ∧ (∀ jv, orc.s3KbFetch (pyStrip (env.kbBucket.getD ""))
          (pyStrip (env.kbKey.getD "knowledgebase.json")) = .ok jv →
        (∀ fs, jv ≠ JVal.obj fs) →
        loadKbFromS3 orc.s3KbFetch (pyStrip (env.kbBucket.getD ""))
          (pyStrip (env.kbKey.getD "knowledgebase.json")) = .ok []) := by
  refine ⟨?_, ?_, ?_, ?_⟩
  · intro hb
    exact handler_config_error env orc event m msg hm hopt hmsg hne hb
  · intro e hb hfetch
    refine handler_kb_client_error env orc event m msg e hm hopt hmsg hne hb ?_
    unfold loadKbFromS3
    rw [hfetch]
  · intro e hb hfetch
    refine handler_kb_other_error env orc event m msg e hm hopt hmsg hne hb ?_
    unfold loadKbFromS3
    rw [hfetch]
  · intro jv hfetch hno
    unfold loadKbFromS3
    rw [hfetch]
    cases jv with
    | obj fs => exact absurd rfl (hno fs)
    | null => rfl
    | bool b => rfl
    | num n => rfl
    | str s => rfl
    | arr xs => rfl

/-- C7 witness: a ClientError from the store surfaces as 500 KBLoadError. -/
theorem kb_loader_fails_loudly_witness :
    lambdaHandler envAllSet orcKbFail [("message", JVal.str "hello")]
      = .ok ⟨500, .msg (.str ("KB load error from S3: " ++ "boom")) "KBLoadError" none⟩ :=
  (kb_loader_fails_loudly envAllSet orcKbFail [("message", JVal.str "hello")] "" "hello"
      rfl (by decide) rfl (by decide)).2.1 "boom" (by decide) rfl

/-- C8: the KB is loaded before the engine is tried — with a non-empty
message and an engine that would have answered, an unset bucket or a
failing load still returns the 500 error. -/
theorem kb_checked_before_lex (env : Env) (orc : Oracles) (event : List (String × JVal))
    (m msg : String) (out : LexOut)
    (hm : getMethod event = .ok m) (hopt : m ≠ "OPTIONS")
    (hmsg : extractMessage orc.safeLoads (.obj event) = .ok msg) (hne : msg ≠ "")
    (hlex : lexReplyIfConfigured env orc msg = some out) :
    (pyStrip (env.kbBucket.getD "") = "" →
      lambdaHandler env orc event
        = .ok ⟨500, .msg (.str serverConfigReply) "ServerConfigError" none⟩)
    ∧ (∀ e, pyStrip (env.kbBucket.getD "") ≠ "" →
        loadKbFromS3 orc.s3KbFetch (pyStrip (env.kbBucket.getD ""))
          (pyStrip (env.kbKey.getD "knowledgebase.json")) = .error (.client e) →
        lambdaHandler env orc event
          = .ok ⟨500, .msg (.str ("KB load error from S3: " ++ e)) "KBLoadError" none⟩)
    ∧ (∀ e, pyStrip (env.kbBucket.getD "") ≠ "" →
        loadKbFromS3 orc.s3KbFetch (pyStrip (env.kbBucket.getD ""))
          (pyStrip (env.kbKey.getD "knowledgebase.json")) = .error (.other e) →
        lambdaHandler env orc event
          = .ok ⟨500, .msg (.str ("KB load error: " ++ e)) "KBLoadError" none⟩) := by
  refine ⟨?_, ?_, ?_⟩
  · intro hb
    exact handler_config_error env orc event m msg hm hopt hmsg hne hb
  · intro e hb hload
    exact handler_kb_client_error env orc event m msg e hm hopt hmsg hne hb hload
  · intro e hb hload
    exact handler_kb_other_error env orc event m msg e hm hopt hmsg hne hb hload

/-- C8 witness: the engine would answer Welcome!/Greeting2, yet the unset
bucket yields 500 ServerConfigError. -/
theorem kb_checked_before_lex_witness :
    lexReplyIfConfigured envLexNoKb orcLexAnswer "hello" = some ⟨"Welcome!", "Greeting2"⟩
    ∧ lambdaHandler envLexNoKb orcLexAnswer [("message", JVal.str "hello")]
        = .ok ⟨500, .msg (.str serverConfigReply) "ServerConfigError" none⟩ :=
  ⟨rfl,
   (kb_checked_before_lex envLexNoKb orcLexAnswer [("message", JVal.str "hello")] "" "hello"
      ⟨"Welcome!", "Greeting2"⟩ rfl (by decide) rfl (by decide) rfl).1 (by decide)⟩

/-- C9: with the engine unconfigured, two runs over the same event, KB
oracle and phrase oracle produce the same status, reply and intent, even
when the sentiment outcome and the clock behind the session id differ. -/
theorem keyword_classification_deterministic
    (kbB kbK useS botId aliasId loc : Option String)
    (sl : String → Option JVal) (s3 : String → String → Except KbFail JVal)
    (lex : String → String → String → String → String → Except Unit LexResponse)
    (kp : Except Unit (List (Option String)))
    (s1 s2 : Except Unit (Option String)) (n1 n2 : Nat)
    (event : List (String × JVal))
    (hunconf : pyStrip (botId.getD "") = "") :
    Except.map respCore (lambdaHandler ⟨kbB, kbK, useS, botId, aliasId, loc⟩
        ⟨sl, s3, lex, kp, s1, n1⟩ event)
      = Except.map respCore (lambdaHandler ⟨kbB, kbK, useS, botId, aliasId, loc⟩
        ⟨sl, s3, lex, kp, s2, n2⟩ event) := by
  refine handlerCoreCongr _ _ _ _ event rfl rfl rfl rfl ?_ (fun _ => rfl)
  intro msg
  rw [lexReply_unconfigured _ _ _ hunconf, lexReply_unconfigured _ _ _ hunconf]

/-- C9 witness: varying the sentiment outcome and the clock leaves status,
reply and intent of the hello classification unchanged. -/
theorem keyword_classification_deterministic_witness :
    pyStrip ((none : Option String).getD "") = ""
    ∧ Except.map respCore (lambdaHandler ⟨some "kb-bucket", none, some "true", none, none, none⟩
        ⟨(fun _ => none), (fun _ _ => .ok (.obj [])), (fun _ _ _ _ _ => .error ()), .ok [],
          .ok (some "POSITIVE"), 0⟩ [("message", JVal.str "hello")])
      = Except.map respCore (lambdaHandler ⟨some "kb-bucket", none, some "true", none, none, none⟩
        ⟨(fun _ => none), (fun _ _ => .ok (.obj [])), (fun _ _ _ _ _ => .error ()), .ok [],
          .error (), 999⟩ [("message", JVal.str "hello")]) :=
  ⟨by decide,
   keyword_classification_deterministic (some "kb-bucket") none (some "true") none none none
     (fun _ => none) (fun _ _ => .ok (.obj [])) (fun _ _ _ _ _ => .error ()) (.ok [])
     (.ok (some "POSITIVE")) (.error ()) 0 999 [("message", JVal.str "hello")] (by decide)⟩

/-- C10 counterexample: a string body parsing to an object whose message
field is the number 5 makes extraction raise — (msg or "").strip() hits a
truthy non-string — so the handler propagates an exception instead of
returning the 400 BadRequest response the claim promises. -/
theorem extract_message_crash_counterexample :
    crashLoads crashBody = some (.obj [("message", .num 5)])
    ∧ extractMessage crashLoads (.obj crashEvent) = .error ()
    ∧ lambdaHandler envAllSet orcCrash crashEvent = .error ()
    ∧ lambdaHandler envAllSet orcCrash crashEvent
        ≠ .ok ⟨400, .msg (.str badRequestReply) "BadRequest" none⟩ := by
  refine ⟨rfl, rfl, rfl, ?_⟩
  intro h
  rw [show lambdaHandler envAllSet orcCrash crashEvent = .error () from rfl] at h
  exact Except.noConfusion h

/-- C10 (amended): with no top-level string message and a string body,
extraction is fail-closed for a body that is not valid JSON, parses to a
non-object, or whose message field is missing or a falsy non-string value
— each gives the 400 BadRequest response; but a truthy non-string message
value raises an uncaught exception out of the handler. -/
theorem extract_message_fails_closed (env : Env) (orc : Oracles)
    (event : List (String × JVal)) (m s : String)
    (hm : getMethod event = .ok m) (hopt : m ≠ "OPTIONS")
    (htop : topMsgIsStr event = false)
    (hbody : jget event "body" = some (.str s)) :
    (orc.safeLoads s = none →
      lambdaHandler env orc event
        = .ok ⟨400, .msg (.str badRequestReply) "BadRequest" none⟩)
    ∧ (∀ v, orc.safeLoads s = some v → (∀ fs, v ≠ JVal.obj fs) →
        lambdaHandler env orc event
          = .ok ⟨400, .msg (.str badRequestReply) "BadRequest" none⟩)
    ∧ (∀ pf, orc.safeLoads s = some (.obj pf) → jget pf "message" = none →
        lambdaHandler env orc event
          = .ok ⟨400, .msg (.str badRequestReply) "BadRequest" none⟩)
    ∧ (∀ pf v, orc.safeLoads s = some (.obj pf) → jget pf "message" = some v →
        (∀ s2, v ≠ JVal.str s2) → v.truthy = false →
        lambdaHandler env orc event
          = .ok ⟨400, .msg (.str badRequestReply) "BadRequest" none⟩)
    ∧ (∀ pf v, orc.safeLoads s = some (.obj pf) → jget pf "message" = some v →
        (∀ s2, v ≠ JVal.str s2) → v.truthy = true →
        lambdaHandler env orc event = .error ()) := by
  have hbase := extract_body_str orc.safeLoads event s htop hbody
  refine ⟨?_, ?_, ?_, ?_, ?_⟩
  · intro hsl
    refine handler_empty_message_400 env orc event m hm hopt ?_
    rw [hbase, hsl]
  · intro v hsl hno
    refine handler_empty_message_400 env orc event m hm hopt ?_
    rw [hbase, hsl]
    cases v with
    | obj fs => exact absurd rfl (hno fs)
    | null => rfl
    | bool b => rfl
    | num n => rfl
    | str s2 => rfl
    | arr xs => rfl
  · intro pf hsl hpm
    refine handler_empty_message_400 env orc event m hm hopt ?_
    simp only [hbase, hsl, msgOrEmpty, hpm]
  · intro pf v hsl hpm hns htr
    refine handler_empty_message_400 env orc event m hm hopt ?_
    cases v with
    | str s2 => exact absurd rfl (hns s2)
    | null => simp only [hbase, hsl, msgOrEmpty, hpm, htr, Bool.false_eq_true, if_false]
    | bool b => simp only [hbase, hsl, msgOrEmpty, hpm, htr, Bool.false_eq_true, if_false]
    | num n => simp only [hbase, hsl, msgOrEmpty, hpm, htr, Bool.false_eq_true, if_false]
    | arr xs => simp only [hbase, hsl, msgOrEmpty, hpm, htr, Bool.false_eq_true, if_false]
    | obj fs => simp only [hbase, hsl, msgOrEmpty, hpm, htr, Bool.false_eq_true, if_false]
  · intro pf v hsl hpm hns htr
    refine handler_extract_error env orc event m hm hopt ?_
    cases v with
    | str s2 => exact absurd rfl (hns s2)
    | null => simp [JVal.truthy] at htr
    | bool b => simp only [hbase, hsl, msgOrEmpty, hpm, htr, if_true]
    | num n => simp only [hbase, hsl, msgOrEmpty, hpm, htr, if_true]
    | arr xs => simp only [hbase, hsl, msgOrEmpty, hpm, htr, if_true]
    | obj fs => simp only [hbase, hsl, msgOrEmpty, hpm, htr, if_true]

/-- C10 witness: a body string that is not valid JSON extracts to the
empty message, and the handler answers 400 BadRequest. -/
theorem extract_message_fails_closed_witness :
    lambdaHandler envAllSet orcBase [("body", JVal.str "notjson")]
      = .ok ⟨400, .msg (.str badRequestReply) "BadRequest" none⟩ :=
  (extract_message_fails_closed envAllSet orcBase [("body", JVal.str "notjson")] "" "notjson"
      rfl (by decide) rfl rfl).1 rfl
